import Mathlib

/-!
Shallow embedding of the Aurora VFS (src/src/auroravfs.c) for the
sqlite-aurora repository.  Each Lean definition mirrors one C function of
the file; external collaborators (the delegate VFS, the SAS checkpoint
facility, the sqlite URI parser) are modelled as explicit oracle
parameters, since their code is outside this repository.
-/

namespace AuroraVfs

/-- SQLite result codes used by auroravfs.c.  Only the codes that occur in
the source are modelled, plus `busy`, a representative nontrivial status a
delegate lock call can return. -/
inductive Rc where
  | ok
  | full
  | cantOpen
  | internalErr
  | snapshotError
  | notFound
  | busy
  | ioerrShmmap
  | ioerrShmlock
  deriving DecidableEq, Repr

/-- C conversion of a 64-bit signed integer to `size_t` (unsigned 64-bit):
reduction modulo 2^64.  `auroraWrite` performs this conversion implicitly
when it compares the `size_t` value `szEnd` with the `sqlite3_int64`
fields `szMax` and `sz`. -/
def toSizeT (x : Int) : Nat := (x % (2 ^ 64 : Int)).toNat

/-- The `AuroraFile` handle of auroravfs.c.  `aData` is the externally
owned buffer, modelled as a byte function over offsets; `pReal` (the
delegate handle) is not stored: every delegated call takes the delegate
outcome as an oracle argument instead. -/
structure AuroraFile where
  isAurMmap : Bool
  sz : Int
  szMax : Int
  aData : Nat → Nat
  szWritten : Nat
  szThreshold : Nat
  bCkptOnSync : Bool
  fd : Int
  fileName : String

/-- auroraWrite.  `z` is the source byte buffer, `iAmt`/`iOfst` the amount
and offset (the host engine passes nonnegative values, so they are `Nat`),
`delegateRc` the oracle outcome of the delegate xWrite, `commitOk` the
oracle outcome of sas_trace_commit.  Returns the updated handle, the
result code, and how many times the checkpoint commit was invoked.
`szEnd` is a C `size_t`, so the comparisons against the int64 fields
`szMax` and `sz` convert the latter through `toSizeT`. -/
def auroraWrite (p : AuroraFile) (z : Nat → Nat) (iAmt iOfst : Nat)
    (delegateRc : Rc) (commitOk : Bool) : AuroraFile × Rc × Nat :=
  if p.isAurMmap = false then (p, delegateRc, 0)
  else
    let szEnd : Nat := iOfst + iAmt
    if szEnd > toSizeT p.szMax then (p, Rc.full, 0)
    else
      let p1 : AuroraFile :=
        { p with
          sz := if szEnd > toSizeT p.sz then (szEnd : Int) else p.sz,
          aData := fun i => if iOfst ≤ i ∧ i < szEnd then z (i - iOfst) else p.aData i,
          szWritten := p.szWritten + iAmt }
      if p1.szThreshold = 0 then (p1, Rc.ok, 0)
      else if p1.szWritten > p1.szThreshold then
        if commitOk then ({ p1 with szWritten := 0 }, Rc.ok, 1)
        else (p1, Rc.snapshotError, 1)
      else (p1, Rc.ok, 0)

/-- auroraTruncate.  `size` is the requested new size (a C int64, so it
may be negative); `delegateRc` the oracle outcome of the delegate
xTruncate. -/
def auroraTruncate (p : AuroraFile) (size : Int) (delegateRc : Rc) :
    AuroraFile × Rc :=
  if p.isAurMmap = false then (p, delegateRc)
  else if size > p.sz then
    if size > p.szMax then (p, Rc.full)
    else
      ({ p with
         aData := fun i => if p.sz ≤ (i : Int) ∧ (i : Int) < size then 0 else p.aData i,
         sz := size }, Rc.ok)
  else ({ p with sz := size }, Rc.ok)

/-- auroraSync.  `delegateRc` is the oracle outcome of the delegate xSync,
`commitOk` the oracle outcome of sas_trace_commit.  Returns the updated
handle, the result code, and how many commits were invoked. -/
def auroraSync (p : AuroraFile) (flags : Int) (delegateRc : Rc)
    (commitOk : Bool) : AuroraFile × Rc × Nat :=
  if p.isAurMmap = false then (p, delegateRc, 0)
  else if p.bCkptOnSync = false ∨ p.szWritten = 0 then (p, Rc.ok, 0)
  else if commitOk then ({ p with szWritten := 0 }, Rc.ok, 1)
  else (p, Rc.snapshotError, 1)

/-- auroraClose.  Returns the result code and whether the delegate xClose
was invoked. -/
def auroraClose (p : AuroraFile) (delegateRc : Rc) : Rc × Bool :=
  if p.isAurMmap = false then (delegateRc, true) else (Rc.ok, false)

/-- auroraRead.  Returns the unchanged handle, the bytes copied out (empty
for the delegated branch, whose data lives in the delegate), and the
result code. -/
def auroraRead (p : AuroraFile) (iAmt iOfst : Nat) (delegateRc : Rc) :
    AuroraFile × List Nat × Rc :=
  if p.isAurMmap = false then (p, [], delegateRc)
  else (p, (List.range iAmt).map (fun i => p.aData (iOfst + i)), Rc.ok)

/-- auroraFileSize.  `delegateSize`/`delegateRc` are the delegate oracle
outputs. -/
def auroraFileSize (p : AuroraFile) (delegateSize : Int) (delegateRc : Rc) :
    AuroraFile × Int × Rc :=
  if p.isAurMmap = false then (p, delegateSize, delegateRc)
  else (p, p.sz, Rc.ok)

/-- auroraLock.  The memory branch does nothing; the delegated branch
invokes the delegate xLock but DISCARDS its status.  Returns the result
code and whether the delegate xLock was invoked. -/
def auroraLock (p : AuroraFile) (eLock : Int) (delegateRc : Rc) : Rc × Bool :=
  if p.isAurMmap = false then (Rc.ok, true) else (Rc.ok, false)

/-- auroraUnlock, same shape as auroraLock: the delegate xUnlock status is
discarded. -/
def auroraUnlock (p : AuroraFile) (eLock : Int) (delegateRc : Rc) : Rc × Bool :=
  if p.isAurMmap = false then (Rc.ok, true) else (Rc.ok, false)

/-- auroraCheckReservedLock: memory branch reports no reserved lock. -/
def auroraCheckReservedLock (p : AuroraFile) (delegateRes : Int)
    (delegateRc : Rc) : AuroraFile × Int × Rc :=
  if p.isAurMmap = false then (p, delegateRes, delegateRc)
  else (p, 0, Rc.ok)

/-- auroraFileControl: the memory branch recognises only
SQLITE_FCNTL_VFSNAME (operation code 12). -/
def auroraFileControl (p : AuroraFile) (op : Int) (delegateRc : Rc) :
    AuroraFile × Rc :=
  if p.isAurMmap = false then (p, delegateRc)
  else if op = 12 then (p, Rc.ok)
  else (p, Rc.notFound)

/-- auroraFetch: the memory branch hands out a pointer into the buffer and
always succeeds. -/
def auroraFetch (p : AuroraFile) (iOfst iAmt : Nat) (delegateRc : Rc) :
    AuroraFile × Rc :=
  if p.isAurMmap = true then (p, Rc.ok) else (p, delegateRc)

/-- sqlite3_uri_int64, modelled as lookup of a decoded query parameter.
The textual decimal/hexadecimal decoding is done by the sqlite library,
outside this repository, so the query string is modelled as its decoded
association list. -/
def sqlite3_uri_int64 (params : List (String × Int)) (zParam : String)
    (bDflt : Int) : Int :=
  match params.find? (fun kv => kv.fst = zParam) with
  | some kv => kv.snd
  | none => bDflt

/-- Outcome of auroraOpen: the result code, the populated handle (present
when control reached the delegate open), whether the delegate xOpen was
invoked, and the value of the process-wide mainDbName global after the
call. -/
structure OpenOutcome where
  rc : Rc
  file : Option AuroraFile
  delegateOpened : Bool
  mainDbName : Option String

/-- auroraOpen.  `isMainDb` models the SQLITE_OPEN_MAIN_DB flag test,
`sasStartOk` the oracle outcome of sas_trace_start for a given fd,
`buf` the contents of the externally supplied ptr buffer, `delegateRc`
the oracle outcome of the delegate xOpen, and `oldMainDbName` the global
before the call.  Note that the capacity is read from the query key
written as m-a-x in the source, not from the key named in the usage
comment of the file. -/
def auroraOpen (zName : String) (params : List (String × Int))
    (isMainDb : Bool) (sasStartOk : Int → Bool) (buf : Nat → Nat)
    (delegateRc : Rc) (oldMainDbName : Option String) : OpenOutcome :=
  if isMainDb then
    let ptr := sqlite3_uri_int64 params "ptr" 0
    if ptr = 0 then
      { rc := Rc.cantOpen, file := none, delegateOpened := false,
        mainDbName := oldMainDbName }
    else
      let sz := sqlite3_uri_int64 params "sz" (-1)
      if sz < 0 then
        { rc := Rc.cantOpen, file := none, delegateOpened := false,
          mainDbName := oldMainDbName }
      else
        let szMax := sqlite3_uri_int64 params "max" sz
        if szMax < sz then
          { rc := Rc.cantOpen, file := none, delegateOpened := false,
            mainDbName := oldMainDbName }
        else
          let fd := sqlite3_uri_int64 params "fd" 0
          if fd = 0 then
            { rc := Rc.cantOpen, file := none, delegateOpened := false,
              mainDbName := oldMainDbName }
          else if sasStartOk fd = false then
            { rc := Rc.internalErr, file := none, delegateOpened := false,
              mainDbName := oldMainDbName }
          else
            { rc := delegateRc,
              file := some
                { isAurMmap := true, sz := sz, szMax := szMax, aData := buf,
                  szWritten := 0,
                  szThreshold := toSizeT (sqlite3_uri_int64 params "threshold" 0),
                  bCkptOnSync := decide (0 < sqlite3_uri_int64 params "ckptOnSync" 1),
                  fd := fd, fileName := zName },
              delegateOpened := true,
              mainDbName := some zName }
  else
    { rc := delegateRc,
      file := some
        { isAurMmap := false, sz := 0, szMax := 0, aData := fun _ => 0,
          szWritten := 0, szThreshold := 0, bCkptOnSync := false, fd := 0,
          fileName := zName },
      delegateOpened := true,
      mainDbName := oldMainDbName }

/-- auroraAccess.  `mainDbName` is the process-wide global,
`delegateOut`/`delegateRc` the oracle answer of the delegate xAccess.
Returns the pResOut value, the result code, and whether the delegate was
consulted. -/
def auroraAccess (mainDbName : Option String) (zPath : String)
    (delegateOut : Int) (delegateRc : Rc) : Int × Rc × Bool :=
  match mainDbName with
  | some nm => if zPath = nm then (1, Rc.ok, false) else (delegateOut, delegateRc, true)
  | none => (delegateOut, delegateRc, true)

/-- A concrete memory-backed handle, used for witnesses: size 10 in a
capacity-100 buffer, write-threshold checkpointing disabled. -/
def pMem : AuroraFile :=
  { isAurMmap := true, sz := 10, szMax := 100, aData := fun _ => 0,
    szWritten := 0, szThreshold := 0, bCkptOnSync := true, fd := 3,
    fileName := "file:db" }

/-- A concrete delegated-mode handle, used for witnesses. -/
def pDel : AuroraFile :=
  { isAurMmap := false, sz := 0, szMax := 0, aData := fun _ => 0,
    szWritten := 0, szThreshold := 0, bCkptOnSync := false, fd := 0,
    fileName := "db-journal" }

/-- A concrete memory-backed handle with a positive checkpoint threshold
of 50 and 20 pending bytes, used for witnesses. -/
def pThr : AuroraFile :=
  { isAurMmap := true, sz := 10, szMax := 100, aData := fun _ => 0,
    szWritten := 20, szThreshold := 50, bCkptOnSync := true, fd := 3,
    fileName := "file:db" }

/-- A fully valid open-time configuration. -/
def cfgOk : List (String × Int) := [("ptr", 1), ("sz", 100), ("max", 1000), ("fd", 7)]

/-- An open-time configuration with the required ptr parameter missing. -/
def cfgNoPtr : List (String × Int) := [("sz", 100), ("fd", 7)]

/-- Checkpoint-session oracle that always succeeds. -/
def sasAlwaysOk : Int → Bool := fun _ => true

/-- Checkpoint-session oracle that always fails. -/
def sasAlwaysFail : Int → Bool := fun _ => false

/-- For an in-capacity memory-backed write, the final state of the handle
carries the size update and the memcpy of the source bytes, the capacity
and the mode are untouched, and a successful chain of commits yields the
ok status.  Shared helper for the write claims. -/
lemma auroraWrite_state (p : AuroraFile) (z : Nat → Nat) (iAmt iOfst : Nat)
    (delegateRc : Rc) (commitOk : Bool) (hm : p.isAurMmap = true)
    (hc : ¬ iOfst + iAmt > toSizeT p.szMax) :
    (auroraWrite p z iAmt iOfst delegateRc commitOk).1.sz
        = (if iOfst + iAmt > toSizeT p.sz then ((iOfst + iAmt : Nat) : Int) else p.sz)
      ∧ (auroraWrite p z iAmt iOfst delegateRc commitOk).1.aData
        = (fun i => if iOfst ≤ i ∧ i < iOfst + iAmt then z (i - iOfst) else p.aData i)
      ∧ (auroraWrite p z iAmt iOfst delegateRc commitOk).1.szMax = p.szMax
      ∧ (auroraWrite p z iAmt iOfst delegateRc commitOk).1.isAurMmap = true
      ∧ (commitOk = true → (auroraWrite p z iAmt iOfst delegateRc commitOk).2.1 = Rc.ok) := by
  unfold auroraWrite
  rw [if_neg (by simp [hm]), if_neg hc]
  dsimp only
  split_ifs with ht hw hcomm <;> exact ⟨rfl, rfl, rfl, hm, fun hok => by simp_all⟩

/-- Commit bookkeeping of an in-capacity memory-backed write: the commit
is invoked exactly once iff the threshold is nonzero and crossed, the
counter resets only on commit success, and the status reflects the commit
outcome.  Shared helper for the write claims. -/
lemma auroraWrite_counter (p : AuroraFile) (z : Nat → Nat) (iAmt iOfst : Nat)
    (delegateRc : Rc) (commitOk : Bool) (hm : p.isAurMmap = true)
    (hc : ¬ iOfst + iAmt > toSizeT p.szMax) :
    ((auroraWrite p z iAmt iOfst delegateRc commitOk).2.2 = 1 ↔
      (¬ p.szThreshold = 0 ∧ p.szThreshold < p.szWritten + iAmt))
    ∧ ((p.szThreshold = 0 ∨ p.szWritten + iAmt ≤ p.szThreshold) →
      (auroraWrite p z iAmt iOfst delegateRc commitOk).2.1 = Rc.ok ∧
      (auroraWrite p z iAmt iOfst delegateRc commitOk).2.2 = 0 ∧
      (auroraWrite p z iAmt iOfst delegateRc commitOk).1.szWritten = p.szWritten + iAmt)
    ∧ (¬ p.szThreshold = 0 → p.szThreshold < p.szWritten + iAmt →
      (commitOk = true →
        (auroraWrite p z iAmt iOfst delegateRc commitOk).1.szWritten = 0 ∧
        (auroraWrite p z iAmt iOfst delegateRc commitOk).2.1 = Rc.ok ∧
        (auroraWrite p z iAmt iOfst delegateRc commitOk).2.2 = 1) ∧
      (commitOk = false →
        (auroraWrite p z iAmt iOfst delegateRc commitOk).2.1 = Rc.snapshotError ∧
        (auroraWrite p z iAmt iOfst delegateRc commitOk).1.szWritten = p.szWritten + iAmt ∧
        (auroraWrite p z iAmt iOfst delegateRc commitOk).2.2 = 1)) := by
  unfold auroraWrite
  rw [if_neg (by simp [hm]), if_neg hc]
  dsimp only
  split_ifs with ht hw hcomm <;> simp_all <;> omega

/-- Claim C1: for every memory-backed write with offset+amount within the
capacity, the call succeeds when the checkpoint commit does not fail,
afterwards size = max(old size, offset+amount) (hence size is at least
offset+amount) and the buffer region from offset to offset+amount holds
the written bytes; for every write with offset+amount beyond the
capacity, the call fails with Full and the whole handle (size, buffer
contents, bytes-since-commit counter) is unchanged. -/
theorem c1_write (p : AuroraFile) (z : Nat → Nat) (iAmt iOfst : Nat)
    (delegateRc : Rc) (commitOk : Bool)
    (hm : p.isAurMmap = true) (h0 : 0 ≤ p.sz) (h1 : p.sz ≤ p.szMax)
    (h2 : p.szMax < 2 ^ 63) :
    (((iOfst : Int) + (iAmt : Int) ≤ p.szMax →
      (commitOk = true →
        (auroraWrite p z iAmt iOfst delegateRc commitOk).2.1 = Rc.ok) ∧
      (auroraWrite p z iAmt iOfst delegateRc commitOk).1.sz
        = max p.sz ((iOfst : Int) + (iAmt : Int)) ∧
      (iOfst : Int) + (iAmt : Int)
        ≤ (auroraWrite p z iAmt iOfst delegateRc commitOk).1.sz ∧
      (∀ i : Nat, i < iAmt →
        (auroraWrite p z iAmt iOfst delegateRc commitOk).1.aData (iOfst + i) = z i)) ∧
    (p.szMax < (iOfst : Int) + (iAmt : Int) →
      auroraWrite p z iAmt iOfst delegateRc commitOk = (p, Rc.full, 0))) := by
  have hmax0 : 0 ≤ p.szMax := le_trans h0 h1
  have hsz2 : p.sz < 2 ^ 63 := lt_of_le_of_lt h1 h2
  constructor
  · intro hcap
    have hc : ¬ iOfst + iAmt > toSizeT p.szMax := by
      unfold toSizeT; omega
    obtain ⟨hsz, hdata, hsm, hmm, hrc⟩ :=
      auroraWrite_state p z iAmt iOfst delegateRc commitOk hm hc
    have hszmax : (auroraWrite p z iAmt iOfst delegateRc commitOk).1.sz
        = max p.sz ((iOfst : Int) + (iAmt : Int)) := by
      rw [hsz]
      unfold toSizeT
      split_ifs with hgt <;> omega
    refine ⟨hrc, hszmax, ?_, ?_⟩
    · rw [hszmax]; exact le_max_right _ _
    · intro i hi
      rw [hdata]
      dsimp only
      rw [if_pos ⟨Nat.le_add_right _ _, by omega⟩]
      congr 1
      omega
  · intro hover
    have hc : iOfst + iAmt > toSizeT p.szMax := by
      unfold toSizeT; omega
    unfold auroraWrite
    rw [if_neg (by simp [hm]), if_pos hc]

/-- Witness for C1: on the concrete handle pMem, a 5-byte write of byte 7
at offset 2 succeeds, grows the size to max(10, 7) = 10 and stores the
bytes, while a 200-byte write fails with Full and leaves the handle
unchanged. -/
theorem c1_write_witness :
    (auroraWrite pMem (fun _ => 7) 5 2 Rc.ok true).2.1 = Rc.ok ∧
    (auroraWrite pMem (fun _ => 7) 5 2 Rc.ok true).1.sz
      = max pMem.sz (((2 : Nat) : Int) + ((5 : Nat) : Int)) ∧
    (∀ i : Nat, i < 5 →
      (auroraWrite pMem (fun _ => 7) 5 2 Rc.ok true).1.aData (2 + i) = 7) ∧
    auroraWrite pMem (fun _ => 7) 200 2 Rc.ok true = (pMem, Rc.full, 0) := by
  have hg := c1_write pMem (fun _ => 7) 5 2 Rc.ok true rfl (by decide) (by decide)
    (by decide)
  have hb := c1_write pMem (fun _ => 7) 200 2 Rc.ok true rfl (by decide) (by decide)
    (by decide)
  obtain ⟨hrc, hsz, -, hdata⟩ := hg.1 (by decide)
  exact ⟨hrc rfl, hsz, hdata, hb.2 (by decide)⟩

/-- Claim C2: for every in-capacity memory-backed write, a zero threshold
means no commit is ever invoked; with a positive threshold, the commit is
invoked exactly once iff the updated bytes-since-commit counter exceeds
the threshold; on commit success the counter resets to 0 and the write
returns ok, on commit failure the write returns SnapshotError, the counter
is not reset, and the buffer mutation and size update remain applied. -/
theorem c2_write_checkpoint (p : AuroraFile) (z : Nat → Nat) (iAmt iOfst : Nat)
    (delegateRc : Rc) (commitOk : Bool)
    (hm : p.isAurMmap = true) (h0 : 0 ≤ p.sz) (h1 : p.sz ≤ p.szMax)
    (h2 : p.szMax < 2 ^ 63) (hcap : (iOfst : Int) + (iAmt : Int) ≤ p.szMax) :
    ((p.szThreshold = 0 →
       (auroraWrite p z iAmt iOfst delegateRc commitOk).2.2 = 0 ∧
       (auroraWrite p z iAmt iOfst delegateRc commitOk).2.1 = Rc.ok ∧
       (auroraWrite p z iAmt iOfst delegateRc commitOk).1.szWritten
         = p.szWritten + iAmt) ∧
     (0 < p.szThreshold →
       ((auroraWrite p z iAmt iOfst delegateRc commitOk).2.2 = 1 ↔
         p.szThreshold < p.szWritten + iAmt) ∧
       (p.szThreshold < p.szWritten + iAmt →
         (commitOk = true →
           (auroraWrite p z iAmt iOfst delegateRc commitOk).1.szWritten = 0 ∧
           (auroraWrite p z iAmt iOfst delegateRc commitOk).2.1 = Rc.ok) ∧
         (commitOk = false →
           (auroraWrite p z iAmt iOfst delegateRc commitOk).2.1 = Rc.snapshotError ∧
           (auroraWrite p z iAmt iOfst delegateRc commitOk).1.szWritten
             = p.szWritten + iAmt ∧
           (auroraWrite p z iAmt iOfst delegateRc commitOk).1.sz
             = max p.sz ((iOfst : Int) + (iAmt : Int)) ∧
           (∀ i : Nat, i < iAmt →
             (auroraWrite p z iAmt iOfst delegateRc commitOk).1.aData (iOfst + i)
               = z i))) ∧
       (p.szWritten + iAmt ≤ p.szThreshold →
         (auroraWrite p z iAmt iOfst delegateRc commitOk).2.2 = 0 ∧
         (auroraWrite p z iAmt iOfst delegateRc commitOk).2.1 = Rc.ok ∧
         (auroraWrite p z iAmt iOfst delegateRc commitOk).1.szWritten
           = p.szWritten + iAmt))) := by
  have hmax0 : 0 ≤ p.szMax := le_trans h0 h1
  have hsz2 : p.sz < 2 ^ 63 := lt_of_le_of_lt h1 h2
  have hc : ¬ iOfst + iAmt > toSizeT p.szMax := by
    unfold toSizeT; omega
  obtain ⟨hsz, hdata, _, _, _⟩ :=
    auroraWrite_state p z iAmt iOfst delegateRc commitOk hm hc
  obtain ⟨hcount, heasy, hcommit⟩ :=
    auroraWrite_counter p z iAmt iOfst delegateRc commitOk hm hc
  have hszmax : (auroraWrite p z iAmt iOfst delegateRc commitOk).1.sz
      = max p.sz ((iOfst : Int) + (iAmt : Int)) := by
    rw [hsz]; unfold toSizeT; split_ifs with hgt <;> omega
  have hbytes : ∀ i : Nat, i < iAmt →
      (auroraWrite p z iAmt iOfst delegateRc commitOk).1.aData (iOfst + i) = z i := by
    intro i hi
    rw [hdata]; dsimp only
    rw [if_pos ⟨Nat.le_add_right _ _, by omega⟩]
    congr 1
    omega
  refine ⟨fun ht => ?_, fun ht => ⟨?_, fun hw => ?_, fun hw => ?_⟩⟩
  · obtain ⟨a, b, c⟩ := heasy (Or.inl ht)
    exact ⟨b, a, c⟩
  · rw [hcount]
    constructor
    · exact fun h => h.2
    · exact fun h => ⟨by omega, h⟩
  · refine ⟨fun hok => ?_, fun hfail => ?_⟩
    · obtain ⟨a, b, _⟩ := (hcommit (by omega) hw).1 hok
      exact ⟨a, b⟩
    · obtain ⟨a, b, _⟩ := (hcommit (by omega) hw).2 hfail
      exact ⟨a, b, hszmax, hbytes⟩
  · obtain ⟨a, b, c⟩ := heasy (Or.inr hw)
    exact ⟨b, a, c⟩

/-- Witness for C2: on pThr (threshold 50, 20 pending bytes), a 40-byte
write crosses the threshold, commits once and resets the counter; the same
write with a failing commit reports SnapshotError and keeps the counter;
a 10-byte write stays under the threshold and commits nothing. -/
theorem c2_write_checkpoint_witness :
    ((auroraWrite pThr (fun _ => 7) 40 0 Rc.ok true).2.2 = 1 ↔
      pThr.szThreshold < pThr.szWritten + 40) ∧
    (auroraWrite pThr (fun _ => 7) 40 0 Rc.ok true).1.szWritten = 0 ∧
    (auroraWrite pThr (fun _ => 7) 40 0 Rc.ok true).2.1 = Rc.ok ∧
    (auroraWrite pThr (fun _ => 7) 40 0 Rc.ok false).2.1 = Rc.snapshotError ∧
    (auroraWrite pThr (fun _ => 7) 40 0 Rc.ok false).1.szWritten
      = pThr.szWritten + 40 ∧
    (auroraWrite pThr (fun _ => 7) 10 0 Rc.ok true).2.2 = 0 ∧
    (auroraWrite pThr (fun _ => 7) 10 0 Rc.ok true).1.szWritten
      = pThr.szWritten + 10 := by
  have hg := c2_write_checkpoint pThr (fun _ => 7) 40 0 Rc.ok true rfl (by decide)
    (by decide) (by decide) (by decide)
  have hf := c2_write_checkpoint pThr (fun _ => 7) 40 0 Rc.ok false rfl (by decide)
    (by decide) (by decide) (by decide)
  have hs := c2_write_checkpoint pThr (fun _ => 7) 10 0 Rc.ok true rfl (by decide)
    (by decide) (by decide) (by decide)
  obtain ⟨hiff, hcommit, -⟩ := hg.2 (by decide)
  obtain ⟨hok₁, hok₂⟩ := (hcommit (by decide)).1 rfl
  obtain ⟨hfa, hfb, -, -⟩ := ((hf.2 (by decide)).2.1 (by decide)).2 rfl
  obtain ⟨hsa, -, hsc⟩ := (hs.2 (by decide)).2.2 (by decide)
  exact ⟨hiff, hok₁, hok₂, hfa, hfb, hsa, hsc⟩

/-- Claim C3: for every memory-backed truncate, growth within capacity
zero-fills the bytes from the old size to the new size and sets the size
to the new size; growth beyond capacity fails with Full and changes
nothing; a truncate to at most the current size succeeds and merely sets
the size, without clearing the now-unused bytes. -/
theorem c3_truncate (p : AuroraFile) (newSize : Int) (delegateRc : Rc)
    (hm : p.isAurMmap = true) (h0 : 0 ≤ p.sz) (h1 : p.sz ≤ p.szMax) :
    ((p.sz < newSize → newSize ≤ p.szMax →
       (auroraTruncate p newSize delegateRc).2 = Rc.ok ∧
       (auroraTruncate p newSize delegateRc).1.sz = newSize ∧
       (∀ i : Nat, p.sz ≤ (i : Int) → (i : Int) < newSize →
         (auroraTruncate p newSize delegateRc).1.aData i = 0) ∧
       (∀ i : Nat, (i : Int) < p.sz →
         (auroraTruncate p newSize delegateRc).1.aData i = p.aData i)) ∧
     (p.szMax < newSize →
       auroraTruncate p newSize delegateRc = (p, Rc.full)) ∧
     (newSize ≤ p.sz →
       (auroraTruncate p newSize delegateRc).2 = Rc.ok ∧
       (auroraTruncate p newSize delegateRc).1.sz = newSize ∧
       (auroraTruncate p newSize delegateRc).1.aData = p.aData)) := by
  refine ⟨fun hgrow hcap => ?_, fun hover => ?_, fun hshrink => ?_⟩
  · unfold auroraTruncate
    rw [if_neg (by simp [hm]), if_pos hgrow, if_neg (by omega)]
    refine ⟨rfl, rfl, fun i hlo hhi => ?_, fun i hlt => ?_⟩
    · dsimp only
      rw [if_pos ⟨hlo, hhi⟩]
    · dsimp only
      rw [if_neg (by omega)]
  · unfold auroraTruncate
    rw [if_neg (by simp [hm]), if_pos (by omega), if_pos hover]
  · unfold auroraTruncate
    rw [if_neg (by simp [hm]), if_neg (by omega)]
    exact ⟨rfl, rfl, rfl⟩

/-- Witness for C3: on pMem (size 10, capacity 100), truncating to 30
zero-fills bytes 10..29 and sets size 30, truncating to 200 fails with
Full and changes nothing, truncating to 4 sets size 4 and leaves the
buffer as it was. -/
theorem c3_truncate_witness :
    (auroraTruncate pMem 30 Rc.ok).2 = Rc.ok ∧
    (auroraTruncate pMem 30 Rc.ok).1.sz = 30 ∧
    (∀ i : Nat, pMem.sz ≤ (i : Int) → (i : Int) < 30 →
      (auroraTruncate pMem 30 Rc.ok).1.aData i = 0) ∧
    auroraTruncate pMem 200 Rc.ok = (pMem, Rc.full) ∧
    (auroraTruncate pMem 4 Rc.ok).2 = Rc.ok ∧
    (auroraTruncate pMem 4 Rc.ok).1.sz = 4 ∧
    (auroraTruncate pMem 4 Rc.ok).1.aData = pMem.aData := by
  have hg := c3_truncate pMem 30 Rc.ok rfl (by decide) (by decide)
  have hb := c3_truncate pMem 200 Rc.ok rfl (by decide) (by decide)
  have hs := c3_truncate pMem 4 Rc.ok rfl (by decide) (by decide)
  obtain ⟨ha, hb1, hc, -⟩ := hg.1 (by decide) (by decide)
  obtain ⟨hsa, hsb, hsc⟩ := hs.2.2 (by decide)
  exact ⟨ha, hb1, hc, hb.2.1 (by decide), hsa, hsb, hsc⟩

/-- Claim C4: for every memory-backed sync, a checkpoint commit is invoked
iff checkpointOnSync is set and the pending counter is positive; otherwise
the call is a no-op returning ok; when a commit is invoked, success resets
the counter and returns ok, failure returns SnapshotError without
resetting the counter. -/
theorem c4_sync (p : AuroraFile) (flags : Int) (delegateRc : Rc) (commitOk : Bool)
    (hm : p.isAurMmap = true) :
    (((auroraSync p flags delegateRc commitOk).2.2 = 1 ↔
       (p.bCkptOnSync = true ∧ 0 < p.szWritten)) ∧
     ((p.bCkptOnSync = false ∨ p.szWritten = 0) →
       auroraSync p flags delegateRc commitOk = (p, Rc.ok, 0)) ∧
     (p.bCkptOnSync = true → 0 < p.szWritten →
       (commitOk = true →
         (auroraSync p flags delegateRc commitOk).1.szWritten = 0 ∧
         (auroraSync p flags delegateRc commitOk).2.1 = Rc.ok ∧
         (auroraSync p flags delegateRc commitOk).2.2 = 1) ∧
       (commitOk = false →
         (auroraSync p flags delegateRc commitOk).2.1 = Rc.snapshotError ∧
         (auroraSync p flags delegateRc commitOk).1.szWritten = p.szWritten ∧
         (auroraSync p flags delegateRc commitOk).1.aData = p.aData ∧
         (auroraSync p flags delegateRc commitOk).1.sz = p.sz ∧
         (auroraSync p flags delegateRc commitOk).2.2 = 1))) := by
  unfold auroraSync
  rw [if_neg (by simp [hm])]
  split_ifs with hskip hcomm
  · simp_all
    intro hb
    rcases hskip with h | h
    · simp_all
    · exact h
  · simp_all
    exact Nat.pos_of_ne_zero hskip.2
  · simp_all
    exact Nat.pos_of_ne_zero hskip.2

/-- Witness for C4: on pThr (20 pending bytes, checkpoint on sync), sync
commits once, resetting on success and reporting SnapshotError without a
reset on failure; on pMem (0 pending bytes) sync is a no-op. -/
theorem c4_sync_witness :
    ((auroraSync pThr 0 Rc.ok true).2.2 = 1 ↔
      (pThr.bCkptOnSync = true ∧ 0 < pThr.szWritten)) ∧
    (auroraSync pThr 0 Rc.ok true).1.szWritten = 0 ∧
    (auroraSync pThr 0 Rc.ok true).2.1 = Rc.ok ∧
    (auroraSync pThr 0 Rc.ok false).2.1 = Rc.snapshotError ∧
    (auroraSync pThr 0 Rc.ok false).1.szWritten = pThr.szWritten ∧
    auroraSync pMem 0 Rc.ok true = (pMem, Rc.ok, 0) := by
  have hg := c4_sync pThr 0 Rc.ok true rfl
  have hf := c4_sync pThr 0 Rc.ok false rfl
  have hn := c4_sync pMem 0 Rc.ok true rfl
  obtain ⟨ha, hb, -⟩ := (hg.2.2 rfl (by decide)).1 rfl
  obtain ⟨hc, hd, -, -, -⟩ := (hf.2.2 rfl (by decide)).2 rfl
  exact ⟨hg.1, ha, hb, hc, hd, hn.2.1 (Or.inr rfl)⟩

/-- Claim C5: opening in memory-backed mode fails with CantOpen exactly
when ptr is absent or zero, sz is absent or negative, the capacity is
below sz, or fd is absent or zero, and fails with Internal when the
checkpoint session cannot be started; these checks run in that order
before the delegate open, which is reached (and its status returned) only
when every check passes. -/
theorem c5_open_validation (zName : String) (params : List (String × Int))
    (sasStartOk : Int → Bool) (buf : Nat → Nat) (delegateRc : Rc)
    (oldMainDbName : Option String) :
    (((sqlite3_uri_int64 params "ptr" 0 = 0 ∨
       sqlite3_uri_int64 params "sz" (-1) < 0 ∨
       sqlite3_uri_int64 params "max" (sqlite3_uri_int64 params "sz" (-1))
         < sqlite3_uri_int64 params "sz" (-1) ∨
       sqlite3_uri_int64 params "fd" 0 = 0) →
      auroraOpen zName params true sasStartOk buf delegateRc oldMainDbName
        = { rc := Rc.cantOpen, file := none, delegateOpened := false,
            mainDbName := oldMainDbName }) ∧
     (¬ (sqlite3_uri_int64 params "ptr" 0 = 0 ∨
         sqlite3_uri_int64 params "sz" (-1) < 0 ∨
         sqlite3_uri_int64 params "max" (sqlite3_uri_int64 params "sz" (-1))
           < sqlite3_uri_int64 params "sz" (-1) ∨
         sqlite3_uri_int64 params "fd" 0 = 0) →
      sasStartOk (sqlite3_uri_int64 params "fd" 0) = false →
      auroraOpen zName params true sasStartOk buf delegateRc oldMainDbName
        = { rc := Rc.internalErr, file := none, delegateOpened := false,
            mainDbName := oldMainDbName }) ∧
     (¬ (sqlite3_uri_int64 params "ptr" 0 = 0 ∨
         sqlite3_uri_int64 params "sz" (-1) < 0 ∨
         sqlite3_uri_int64 params "max" (sqlite3_uri_int64 params "sz" (-1))
           < sqlite3_uri_int64 params "sz" (-1) ∨
         sqlite3_uri_int64 params "fd" 0 = 0) →
      sasStartOk (sqlite3_uri_int64 params "fd" 0) = true →
      (auroraOpen zName params true sasStartOk buf delegateRc
          oldMainDbName).delegateOpened = true ∧
      (auroraOpen zName params true sasStartOk buf delegateRc
          oldMainDbName).rc = delegateRc) ∧
     (delegateRc = Rc.ok →
      (((auroraOpen zName params true sasStartOk buf delegateRc
            oldMainDbName).rc = Rc.cantOpen) ↔
        (sqlite3_uri_int64 params "ptr" 0 = 0 ∨
         sqlite3_uri_int64 params "sz" (-1) < 0 ∨
         sqlite3_uri_int64 params "max" (sqlite3_uri_int64 params "sz" (-1))
           < sqlite3_uri_int64 params "sz" (-1) ∨
         sqlite3_uri_int64 params "fd" 0 = 0)) ∧
      (((auroraOpen zName params true sasStartOk buf delegateRc
            oldMainDbName).rc = Rc.internalErr) ↔
        (¬ (sqlite3_uri_int64 params "ptr" 0 = 0 ∨
            sqlite3_uri_int64 params "sz" (-1) < 0 ∨
            sqlite3_uri_int64 params "max" (sqlite3_uri_int64 params "sz" (-1))
              < sqlite3_uri_int64 params "sz" (-1) ∨
            sqlite3_uri_int64 params "fd" 0 = 0) ∧
          sasStartOk (sqlite3_uri_int64 params "fd" 0) = false)))) := by
  unfold auroraOpen
  rw [if_pos rfl]
  dsimp only
  split_ifs with h1 h2 h3 h4 h5 <;>
    refine ⟨?_, ?_, ?_, ?_⟩ <;> simp_all <;> tauto

/-- Witness for C5: a configuration with ptr missing yields CantOpen, the
valid configuration cfgOk opens the delegate and returns its status, and
cfgOk with a failing checkpoint-session start yields Internal. -/
theorem c5_open_validation_witness :
    auroraOpen "file:db" cfgNoPtr true sasAlwaysOk (fun _ => 0) Rc.ok none
      = { rc := Rc.cantOpen, file := none, delegateOpened := false,
          mainDbName := none } ∧
    (auroraOpen "file:db" cfgOk true sasAlwaysOk (fun _ => 0) Rc.ok
        none).delegateOpened = true ∧
    (auroraOpen "file:db" cfgOk true sasAlwaysOk (fun _ => 0) Rc.ok
        none).rc = Rc.ok ∧
    auroraOpen "file:db" cfgOk true sasAlwaysFail (fun _ => 0) Rc.ok none
      = { rc := Rc.internalErr, file := none, delegateOpened := false,
          mainDbName := none } := by
  have hb := c5_open_validation "file:db" cfgNoPtr sasAlwaysOk (fun _ => 0) Rc.ok none
  have hg := c5_open_validation "file:db" cfgOk sasAlwaysOk (fun _ => 0) Rc.ok none
  have hi := c5_open_validation "file:db" cfgOk sasAlwaysFail (fun _ => 0) Rc.ok none
  obtain ⟨hga, hgb⟩ := hg.2.2.1 (by decide) rfl
  exact ⟨hb.1 (Or.inl (by decide)), hga, hgb, hi.2.1 (by decide) rfl⟩

/-- Counterexample for C6: on the concrete valid handle pMem (size 10,
capacity 100), the host passing a negative newSize to truncate makes the
call succeed and set size to -5, violating 0 <= size; so not every
per-file operation preserves 0 <= size <= capacity for every argument
value. -/
theorem c6_invariant_counterexample :
    pMem.isAurMmap = true ∧ 0 ≤ pMem.sz ∧ pMem.sz ≤ pMem.szMax ∧
    (auroraTruncate pMem (-5) Rc.ok).2 = Rc.ok ∧
    (auroraTruncate pMem (-5) Rc.ok).1.sz = -5 ∧
    ¬ (0 ≤ (auroraTruncate pMem (-5) Rc.ok).1.sz) := by
  refine ⟨rfl, by decide, by decide, rfl, rfl, by decide⟩

/-- Claim C6 (amended): on a memory-backed handle satisfying
0 <= size <= capacity, write (any arguments), truncate restricted to a
nonnegative newSize, and sync all preserve 0 <= size <= capacity and leave
the capacity unchanged, and the remaining per-file operations (read,
filesize, fetch, fileControl, checkReservedLock; lock, unlock and close
return no state at all in the source) do not modify the handle; a truncate
to a negative newSize, however, sets size to that negative value. -/
theorem c6_invariant_amended (p : AuroraFile)
    (hm : p.isAurMmap = true) (h0 : 0 ≤ p.sz) (h1 : p.sz ≤ p.szMax)
    (h2 : p.szMax < 2 ^ 63) :
    ((∀ (z : Nat → Nat) (iAmt iOfst : Nat) (delegateRc : Rc) (commitOk : Bool),
        0 ≤ (auroraWrite p z iAmt iOfst delegateRc commitOk).1.sz ∧
        (auroraWrite p z iAmt iOfst delegateRc commitOk).1.sz
          ≤ (auroraWrite p z iAmt iOfst delegateRc commitOk).1.szMax ∧
        (auroraWrite p z iAmt iOfst delegateRc commitOk).1.szMax = p.szMax) ∧
     (∀ (newSize : Int) (delegateRc : Rc), 0 ≤ newSize →
        0 ≤ (auroraTruncate p newSize delegateRc).1.sz ∧
        (auroraTruncate p newSize delegateRc).1.sz
          ≤ (auroraTruncate p newSize delegateRc).1.szMax ∧
        (auroraTruncate p newSize delegateRc).1.szMax = p.szMax) ∧
     (∀ (flags : Int) (delegateRc : Rc) (commitOk : Bool),
        (auroraSync p flags delegateRc commitOk).1.sz = p.sz ∧
        (auroraSync p flags delegateRc commitOk).1.szMax = p.szMax) ∧
     (∀ (iAmt iOfst : Nat) (delegateRc : Rc),
        (auroraRead p iAmt iOfst delegateRc).1 = p) ∧
     (∀ (delegateSize : Int) (delegateRc : Rc),
        (auroraFileSize p delegateSize delegateRc).1 = p) ∧
     (∀ (iOfst iAmt : Nat) (delegateRc : Rc),
        (auroraFetch p iOfst iAmt delegateRc).1 = p) ∧
     (∀ (op : Int) (delegateRc : Rc),
        (auroraFileControl p op delegateRc).1 = p) ∧
     (∀ (delegateRes : Int) (delegateRc : Rc),
        (auroraCheckReservedLock p delegateRes delegateRc).1 = p)) := by
  have hmax0 : 0 ≤ p.szMax := le_trans h0 h1
  have hsz2 : p.sz < 2 ^ 63 := lt_of_le_of_lt h1 h2
  refine ⟨?_, ?_, ?_, ?_, ?_, ?_, ?_, ?_⟩
  · intro z iAmt iOfst delegateRc commitOk
    by_cases hc : iOfst + iAmt > toSizeT p.szMax
    · have hfull : auroraWrite p z iAmt iOfst delegateRc commitOk = (p, Rc.full, 0) := by
        unfold auroraWrite
        rw [if_neg (by simp [hm]), if_pos hc]
      rw [hfull]
      exact ⟨h0, h1, rfl⟩
    · obtain ⟨hsz, _, hsm, _, _⟩ :=
        auroraWrite_state p z iAmt iOfst delegateRc commitOk hm hc
      refine ⟨?_, ?_, hsm⟩
      · rw [hsz]
        unfold toSizeT at *
        split_ifs <;> omega
      · rw [hsz, hsm]
        unfold toSizeT at *
        split_ifs <;> omega
  · intro newSize delegateRc hns
    by_cases hgrow : newSize > p.sz
    · by_cases hover : newSize > p.szMax
      · have hfull : auroraTruncate p newSize delegateRc = (p, Rc.full) := by
          unfold auroraTruncate
          rw [if_neg (by simp [hm]), if_pos hgrow, if_pos hover]
        rw [hfull]
        exact ⟨h0, h1, rfl⟩
      · have hst : (auroraTruncate p newSize delegateRc).1.sz = newSize ∧
            (auroraTruncate p newSize delegateRc).1.szMax = p.szMax := by
          unfold auroraTruncate
          rw [if_neg (by simp [hm]), if_pos hgrow, if_neg hover]
          exact ⟨rfl, rfl⟩
        rw [hst.1, hst.2]
        exact ⟨hns, by omega, rfl⟩
    · have hst : (auroraTruncate p newSize delegateRc).1.sz = newSize ∧
          (auroraTruncate p newSize delegateRc).1.szMax = p.szMax := by
        unfold auroraTruncate
        rw [if_neg (by simp [hm]), if_neg hgrow]
        exact ⟨rfl, rfl⟩
      rw [hst.1, hst.2]
      exact ⟨hns, by omega, rfl⟩
  · intro flags delegateRc commitOk
    unfold auroraSync
    rw [if_neg (by simp [hm])]
    split_ifs <;> exact ⟨rfl, rfl⟩
  · intro iAmt iOfst delegateRc
    unfold auroraRead
    split_ifs <;> rfl
  · intro delegateSize delegateRc
    unfold auroraFileSize
    split_ifs <;> rfl
  · intro iOfst iAmt delegateRc
    unfold auroraFetch
    split_ifs <;> rfl
  · intro op delegateRc
    unfold auroraFileControl
    split_ifs <;> rfl
  · intro delegateRes delegateRc
    unfold auroraCheckReservedLock
    split_ifs <;> rfl

/-- Witness for C6 (amended): the invariant preservation evaluated on the
concrete handle pMem for representative arguments of each operation. -/
theorem c6_invariant_witness :
    (0 ≤ (auroraWrite pMem (fun _ => 7) 5 2 Rc.ok true).1.sz ∧
     (auroraWrite pMem (fun _ => 7) 5 2 Rc.ok true).1.sz
       ≤ (auroraWrite pMem (fun _ => 7) 5 2 Rc.ok true).1.szMax ∧
     (auroraWrite pMem (fun _ => 7) 5 2 Rc.ok true).1.szMax = pMem.szMax) ∧
    (0 ≤ (auroraTruncate pMem 30 Rc.ok).1.sz ∧
     (auroraTruncate pMem 30 Rc.ok).1.sz ≤ (auroraTruncate pMem 30 Rc.ok).1.szMax ∧
     (auroraTruncate pMem 30 Rc.ok).1.szMax = pMem.szMax) ∧
    ((auroraSync pMem 0 Rc.ok true).1.sz = pMem.sz ∧
     (auroraSync pMem 0 Rc.ok true).1.szMax = pMem.szMax) ∧
    (auroraRead pMem 4 0 Rc.ok).1 = pMem ∧
    (auroraFileSize pMem 0 Rc.ok).1 = pMem ∧
    (auroraFetch pMem 0 4 Rc.ok).1 = pMem ∧
    (auroraFileControl pMem 12 Rc.ok).1 = pMem ∧
    (auroraCheckReservedLock pMem 0 Rc.ok).1 = pMem := by
  have h := c6_invariant_amended pMem rfl (by decide) (by decide) (by decide)
  exact ⟨h.1 (fun _ => 7) 5 2 Rc.ok true, h.2.1 30 Rc.ok (by decide),
    h.2.2.1 0 Rc.ok true, h.2.2.2.1 4 0 Rc.ok, h.2.2.2.2.1 0 Rc.ok,
    h.2.2.2.2.2.1 0 4 Rc.ok, h.2.2.2.2.2.2.1 12 Rc.ok, h.2.2.2.2.2.2.2 0 Rc.ok⟩

/-- Claim C7 (code bug): the capacity should come from the query parameter
named maxsz, as the usage comment of auroravfs.c documents, but the code
reads the key written m-a-x; supplying the documented key leaves the
capacity at its sz default, while the undocumented shorter key sets it.
The third conjunct shows the capacity always equals the lookup of the
shorter key. -/
theorem c7_maxsz_key_bug :
    ((auroraOpen "file:db" [("ptr", 1), ("sz", 100), ("maxsz", 1000), ("fd", 7)]
        true sasAlwaysOk (fun _ => 0) Rc.ok none).file.map (fun q => q.szMax)
      = some 100) ∧
    ((auroraOpen "file:db" [("ptr", 1), ("sz", 100), ("max", 1000), ("fd", 7)]
        true sasAlwaysOk (fun _ => 0) Rc.ok none).file.map (fun q => q.szMax)
      = some 1000) ∧
    (∀ zName params sasStartOk buf delegateRc old,
      ((auroraOpen zName params true sasStartOk buf delegateRc old).file.map
          (fun q => q.szMax)).all
        (fun v => v = sqlite3_uri_int64 params "max"
          (sqlite3_uri_int64 params "sz" (-1))) = true) := by
  refine ⟨by decide, by decide, ?_⟩
  intro zName params sasStartOk buf delegateRc old
  unfold auroraOpen
  rw [if_pos rfl]
  dsimp only
  split_ifs <;> simp_all

/-- Counterexample for C8: closing the memory-backed handle pMem does not
invoke the delegate xClose, so close does not always close the owned
delegate handle in both modes. -/
theorem c8_close_counterexample :
    pMem.isAurMmap = true ∧ (auroraClose pMem Rc.ok).2 = false := ⟨rfl, rfl⟩

/-- Claim C8 (amended): the delegate handle is opened alongside the
primary handle in both modes (in memory-backed mode once the parameter
checks and the checkpoint-session start pass), but on close the delegate
xClose is invoked only for delegated-mode handles; memory-backed close is
a no-op that returns ok without touching the delegate. -/
theorem c8_close_amended (p : AuroraFile) (delegateRc : Rc)
    (zName : String) (params : List (String × Int)) (sasStartOk : Int → Bool)
    (buf : Nat → Nat) (openRc : Rc) (old : Option String) :
    ((p.isAurMmap = false → auroraClose p delegateRc = (delegateRc, true)) ∧
     (p.isAurMmap = true → auroraClose p delegateRc = (Rc.ok, false)) ∧
     ((auroraOpen zName params false sasStartOk buf openRc old).delegateOpened
        = true) ∧
     (¬ sqlite3_uri_int64 params "ptr" 0 = 0 →
      ¬ sqlite3_uri_int64 params "sz" (-1) < 0 →
      ¬ sqlite3_uri_int64 params "max" (sqlite3_uri_int64 params "sz" (-1))
          < sqlite3_uri_int64 params "sz" (-1) →
      ¬ sqlite3_uri_int64 params "fd" 0 = 0 →
      sasStartOk (sqlite3_uri_int64 params "fd" 0) = true →
      (auroraOpen zName params true sasStartOk buf openRc old).delegateOpened
        = true)) := by
  refine ⟨fun hd => ?_, fun hmm => ?_, rfl, fun hp hs hx hf hsas => ?_⟩
  · unfold auroraClose
    rw [if_pos hd]
  · unfold auroraClose
    rw [if_neg (by simp [hmm])]
  · unfold auroraOpen
    rw [if_pos rfl]
    dsimp only
    rw [if_neg hp, if_neg hs, if_neg hx, if_neg hf, if_neg (by simp [hsas])]

/-- Witness for C8 (amended): closing the delegated handle pDel closes the
delegate, closing the memory-backed handle pMem does not, and both a
delegated open and a valid memory-backed open invoke the delegate open. -/
theorem c8_close_witness :
    auroraClose pDel Rc.ok = (Rc.ok, true) ∧
    auroraClose pMem Rc.ok = (Rc.ok, false) ∧
    (auroraOpen "db-journal" cfgNoPtr false sasAlwaysOk (fun _ => 0) Rc.ok
        none).delegateOpened = true ∧
    (auroraOpen "file:db" cfgOk true sasAlwaysOk (fun _ => 0) Rc.ok
        none).delegateOpened = true := by
  have hd := c8_close_amended pDel Rc.ok "db-journal" cfgNoPtr sasAlwaysOk
    (fun _ => 0) Rc.ok none
  have hmm := c8_close_amended pMem Rc.ok "file:db" cfgOk sasAlwaysOk
    (fun _ => 0) Rc.ok none
  exact ⟨hd.1 rfl, hmm.2.1 rfl, hd.2.2.1,
    hmm.2.2.2 (by decide) (by decide) (by decide) (by decide) rfl⟩

/-- Counterexample for C9: on the delegated handle pDel with the delegate
lock and unlock reporting busy, the call returns ok rather than the
status the underlying provider returned, so the status is not propagated
verbatim. -/
theorem c9_lock_counterexample :
    pDel.isAurMmap = false ∧
    (auroraLock pDel 1 Rc.busy).1 = Rc.ok ∧
    ¬ (auroraLock pDel 1 Rc.busy).1 = Rc.busy ∧
    (auroraUnlock pDel 1 Rc.busy).1 = Rc.ok ∧
    ¬ (auroraUnlock pDel 1 Rc.busy).1 = Rc.busy := by
  exact ⟨rfl, rfl, by decide, rfl, by decide⟩

/-- Claim C9 (amended): for every delegated-mode handle, lock and unlock
do invoke the corresponding operation of the underlying provider, but the
status returned to the caller is always ok, regardless of what the
provider returned. -/
theorem c9_lock_amended (p : AuroraFile) (eLock : Int) (delegateRc : Rc)
    (hd : p.isAurMmap = false) :
    auroraLock p eLock delegateRc = (Rc.ok, true) ∧
    auroraUnlock p eLock delegateRc = (Rc.ok, true) := by
  constructor <;> simp [auroraLock, auroraUnlock, hd]

/-- Witness for C9 (amended): evaluated on the concrete delegated handle
pDel with a busy delegate. -/
theorem c9_lock_witness :
    pDel.isAurMmap = false ∧
    auroraLock pDel 1 Rc.busy = (Rc.ok, true) ∧
    auroraUnlock pDel 1 Rc.busy = (Rc.ok, true) :=
  ⟨rfl, (c9_lock_amended pDel 1 Rc.busy rfl).1,
    (c9_lock_amended pDel 1 Rc.busy rfl).2⟩

/-- Claim C10: an access query for the name recorded as the primary
database reports exists (result 1, status ok) without consulting the
delegate; any other name, and any name while no primary name is recorded,
is answered by the delegate verbatim; a valid memory-backed open records
its name as the primary-database name. -/
theorem c10_access (mainDbName : Option String) (zPath : String)
    (delegateOut : Int) (delegateRc : Rc) (zName : String)
    (params : List (String × Int)) (sasStartOk : Int → Bool) (buf : Nat → Nat)
    (openRc : Rc) (old : Option String) :
    ((mainDbName = some zPath →
       auroraAccess mainDbName zPath delegateOut delegateRc = (1, Rc.ok, false)) ∧
     (¬ mainDbName = some zPath →
       auroraAccess mainDbName zPath delegateOut delegateRc
         = (delegateOut, delegateRc, true)) ∧
     (auroraAccess none zPath delegateOut delegateRc
        = (delegateOut, delegateRc, true)) ∧
     (¬ sqlite3_uri_int64 params "ptr" 0 = 0 →
      ¬ sqlite3_uri_int64 params "sz" (-1) < 0 →
      ¬ sqlite3_uri_int64 params "max" (sqlite3_uri_int64 params "sz" (-1))
          < sqlite3_uri_int64 params "sz" (-1) →
      ¬ sqlite3_uri_int64 params "fd" 0 = 0 →
      sasStartOk (sqlite3_uri_int64 params "fd" 0) = true →
      (auroraOpen zName params true sasStartOk buf openRc old).mainDbName
        = some zName)) := by
  refine ⟨fun he => ?_, fun hne => ?_, rfl, fun hp hs hx hf hsas => ?_⟩
  · subst he
    simp [auroraAccess]
  · cases mainDbName with
    | none => rfl
    | some nm =>
      unfold auroraAccess
      dsimp only
      rw [if_neg (fun h => hne (by rw [h]))]
  · unfold auroraOpen
    rw [if_pos rfl]
    dsimp only
    rw [if_neg hp, if_neg hs, if_neg hx, if_neg hf, if_neg (by simp [hsas])]

/-- Witness for C10: with the recorded primary name file:db, the query for
that exact name reports exists without the delegate, other names and the
no-recorded-name state fall through to the delegate, and a valid
memory-backed open records its name. -/
theorem c10_access_witness :
    auroraAccess (some "file:db") "file:db" 0 Rc.ok = (1, Rc.ok, false) ∧
    auroraAccess (some "file:db") "other" 0 Rc.notFound
      = (0, Rc.notFound, true) ∧
    auroraAccess none "file:db" 0 Rc.notFound = (0, Rc.notFound, true) ∧
    (auroraOpen "file:db" cfgOk true sasAlwaysOk (fun _ => 0) Rc.ok
        none).mainDbName = some "file:db" := by
  have h1 := c10_access (some "file:db") "file:db" 0 Rc.ok "file:db" cfgOk
    sasAlwaysOk (fun _ => 0) Rc.ok none
  have h2 := c10_access (some "file:db") "other" 0 Rc.notFound "file:db" cfgOk
    sasAlwaysOk (fun _ => 0) Rc.ok none
  have h3 := c10_access none "file:db" 0 Rc.notFound "file:db" cfgOk
    sasAlwaysOk (fun _ => 0) Rc.ok none
  exact ⟨h1.1 rfl, h2.2.1 (by decide), h3.2.2.1,
    h1.2.2.2 (by decide) (by decide) (by decide) (by decide) rfl⟩

end AuroraVfs
